import Mathlib

/-!
Shallow embedding of the Flask service in `src/app.py` (a greeting endpoint,
a liveness endpoint, and a JSON health endpoint), together with the health
aggregation policy of the specification.

Environment-variable reads are modelled as `Option String` inputs (`none`
means the variable is unset); the process clock is modelled as an explicit
naive local datetime passed to the handlers, mirroring `datetime.now()`.
-/

/-- A sub-check result: `{ name, healthy, message }` (spec §3 `SubCheckResult`). -/
structure SubCheckResult where
  name : String
  healthy : Bool
  message : String
deriving DecidableEq, Repr

/-- Process configuration loaded from environment variables at startup
(spec §3 `ProcessConfig`; `app.py` lines 11-14). -/
structure ProcessConfig where
  environment : String
  debug : Bool
  secret : String
  version : String
deriving DecidableEq, Repr

/-- The raw environment variables the module reads, each possibly unset. -/
structure EnvVars where
  flask_env : Option String
  secret_key : Option String
  app_version : Option String
deriving DecidableEq, Repr

/-- `FLASK_ENV = os.environ.get("FLASK_ENV", "development")` (`app.py` line 11). -/
def FLASK_ENV (e : EnvVars) : String := e.flask_env.getD "development"

/-- `DEBUG_MODE = FLASK_ENV == "development"` (`app.py` line 12). -/
def DEBUG_MODE (e : EnvVars) : Bool := FLASK_ENV e == "development"

/-- `SECRET_KEY = os.environ.get("SECRET_KEY", "a_super_secret_key_for_dev_only")`
(`app.py` line 13). -/
def SECRET_KEY (e : EnvVars) : String := e.secret_key.getD "a_super_secret_key_for_dev_only"

/-- `APP_VERSION = os.environ.get("APP_VERSION", "0.0.1-dev")` (`app.py` line 14). -/
def APP_VERSION (e : EnvVars) : String := e.app_version.getD "0.0.1-dev"

/-- The module-level configuration as one record (spec §3 `ProcessConfig`). -/
def loadConfig (e : EnvVars) : ProcessConfig :=
  { environment := FLASK_ENV e
    debug := DEBUG_MODE e
    secret := SECRET_KEY e
    version := APP_VERSION e }

/-- A naive local datetime, as produced by Python `datetime.now()`:
no timezone information is attached. -/
structure NaiveDatetime where
  year : Nat
  month : Nat
  day : Nat
  hour : Nat
  minute : Nat
  second : Nat
  microsecond : Nat
deriving DecidableEq, Repr

/-- The decimal digit character for a digit value below ten. -/
def digitChar (n : Nat) : Char :=
  if n = 0 then '0' else if n = 1 then '1' else if n = 2 then '2'
  else if n = 3 then '3' else if n = 4 then '4' else if n = 5 then '5'
  else if n = 6 then '6' else if n = 7 then '7' else if n = 8 then '8' else '9'

/-- Decimal printing loop, one digit per unit of `fuel`, accumulating the least
significant digit first. -/
def natCharsGo : Nat → Nat → List Char → List Char
  | 0, n, acc => digitChar n :: acc
  | fuel + 1, n, acc =>
    if n < 10 then digitChar n :: acc
    else natCharsGo fuel (n / 10) (digitChar (n % 10) :: acc)

/-- Decimal representation of a natural number as characters (most significant
digit first), as Python `%d` renders it; `n` units of fuel always suffice. -/
def natChars (n : Nat) : List Char := natCharsGo n n []

/-- `n` printed in decimal and zero-padded on the left to width `w`,
as Python `%0wd` formatting does. -/
def padChars (w n : Nat) : List Char :=
  List.replicate (w - (natChars n).length) '0' ++ natChars n

/-- The date part `YYYY-MM-DD` of Python `datetime.isoformat()`. -/
def isoDateChars (d : NaiveDatetime) : List Char :=
  padChars 4 d.year ++ '-' :: padChars 2 d.month ++ '-' :: padChars 2 d.day

/-- The time part `HH:MM:SS[.ffffff]` of Python `datetime.isoformat()`:
the microsecond field is omitted when it is zero. -/
def isoTimeChars (d : NaiveDatetime) : List Char :=
  padChars 2 d.hour ++ ':' :: padChars 2 d.minute ++ ':' :: padChars 2 d.second ++
    (if d.microsecond = 0 then [] else '.' :: padChars 6 d.microsecond)

/-- `datetime.now().isoformat()` for a naive datetime (`app.py` line 50):
`YYYY-MM-DDTHH:MM:SS[.ffffff]`, with no offset suffix. -/
def isoformat (d : NaiveDatetime) : String :=
  String.mk (isoDateChars d ++ 'T' :: isoTimeChars d)

/-- Whether `c` is a decimal digit character. -/
def isDig (c : Char) : Bool := 48 ≤ c.toNat && c.toNat ≤ 57

/-- An ISO-8601 timestamp carries a UTC or local offset exactly when its time
part (everything after the date/time separator `T`) contains `+`, `-` or `Z`. -/
def carriesOffset (s : String) : Bool :=
  (s.data.dropWhile (fun c => c != 'T')).any (fun c => c == '+' || c == '-' || c == 'Z')

/-- The `/` route handler `hello_world` (`app.py` lines 32-38): body and HTTP code. -/
def hello_world (e : EnvVars) : String × Nat :=
  ("Hello, Flask in Docker! This is version: " ++ APP_VERSION e, 200)

/-- Number of occurrences of `pat` as a contiguous substring of `s`
(one per starting position). -/
def countOcc (pat : List Char) : List Char → Nat
  | [] => if pat.isPrefixOf ([] : List Char) then 1 else 0
  | c :: rest => (if pat.isPrefixOf (c :: rest) then 1 else 0) + countOcc pat rest

/-- The health report rendered by `/health` (spec §3 `HealthReport`;
`app.py` lines 48-54). -/
structure HealthReport where
  status : String
  timestamp : String
  application_version : String
  environment : String
  checks : List SubCheckResult
deriving DecidableEq, Repr

/-- The status-to-HTTP-code mapping of `app.py` lines 95-99:
`503` for `DOWN`, `200` for `DEGRADED`, `200` otherwise. -/
def statusToHttpCode (status : String) : Nat :=
  if status = "DOWN" then 503
  else if status = "DEGRADED" then 200
  else 200

/-- The `/health` route handler `health_check` as wired (`app.py` lines 40-102):
no sub-check is run, the report is built with status `UP` and an empty `checks`
list, and the HTTP code is computed from the status. -/
def health_check (cfg : ProcessConfig) (now : NaiveDatetime) : HealthReport × Nat :=
  let health_status : HealthReport :=
    { status := "UP"
      timestamp := isoformat now
      application_version := cfg.version
      environment := cfg.environment
      checks := [] }
  let status_code :=
    if health_status.status = "DOWN" then 503
    else if health_status.status = "DEGRADED" then 200
    else 200
  (health_status, status_code)

/-- Modelled from the spec: the general health aggregator `Evaluate` of §4.1 is
not present in `src/app.py` — only the empty-check path is wired, the per-check
aggregation existing only as commented-out examples. Per §3 and §4.1, every
sub-check in current scope is critical, so the status is `DOWN` when some
sub-check is unhealthy and `UP` otherwise (`DEGRADED` is reserved and
unreachable); `checks` is passed through in input order, the metadata is copied
from the configuration, and the HTTP code follows the §4.1 mapping. -/
def Evaluate (cfg : ProcessConfig) (now : NaiveDatetime)
    (checks : List SubCheckResult) : HealthReport × Nat :=
  let status := if checks.any (fun c => !c.healthy) then "DOWN" else "UP"
  let report : HealthReport :=
    { status := status
      timestamp := isoformat now
      application_version := cfg.version
      environment := cfg.environment
      checks := checks }
  (report, statusToHttpCode report.status)

/-- The `/status` route handler (`app.py` lines 105-112): `return "OK", 200`. -/
def status_route : String × Nat := ("OK", 200)

/-! ## Helper lemmas -/

theorem Evaluate_status (cfg : ProcessConfig) (now : NaiveDatetime)
    (checks : List SubCheckResult) :
    (Evaluate cfg now checks).1.status =
      if checks.any (fun c => !c.healthy) then "DOWN" else "UP" := rfl

theorem isPrefixOf_self (l : List Char) : l.isPrefixOf l = true := by
  simp

theorem countOcc_append_self (pat l : List Char) : 1 ≤ countOcc pat (l ++ pat) := by
  induction l with
  | nil =>
    rw [List.nil_append]
    cases pat with
    | nil => simp [countOcc]
    | cons c rest =>
      simp only [countOcc, isPrefixOf_self, if_true]
      omega
  | cons c l ih =>
    rw [List.cons_append, countOcc]
    omega

theorem isDig_digitChar (n : Nat) : isDig (digitChar n) = true := by
  unfold digitChar
  repeat first | decide | split

theorem natCharsGo_all_isDig (fuel : Nat) :
    ∀ (n : Nat) (acc : List Char), (∀ c ∈ acc, isDig c = true) →
      ∀ c ∈ natCharsGo fuel n acc, isDig c = true := by
  induction fuel with
  | zero =>
    intro n acc hacc c hc
    simp only [natCharsGo] at hc
    rcases List.mem_cons.mp hc with rfl | hc
    · exact isDig_digitChar n
    · exact hacc c hc
  | succ fuel ih =>
    intro n acc hacc c hc
    simp only [natCharsGo] at hc
    split at hc
    · rcases List.mem_cons.mp hc with rfl | hc
      · exact isDig_digitChar n
      · exact hacc c hc
    · refine ih (n / 10) (digitChar (n % 10) :: acc) ?_ c hc
      intro d hd
      rcases List.mem_cons.mp hd with rfl | hd
      · exact isDig_digitChar (n % 10)
      · exact hacc d hd

theorem natChars_all_isDig (n : Nat) : ∀ c ∈ natChars n, isDig c = true :=
  natCharsGo_all_isDig n n [] (by intro c hc; cases hc)

theorem padChars_all_isDig (w n : Nat) : ∀ c ∈ padChars w n, isDig c = true := by
  intro c hc
  unfold padChars at hc
  rcases List.mem_append.mp hc with hc | hc
  · have hz := List.eq_of_mem_replicate hc
    subst hz
    decide
  · exact natChars_all_isDig n c hc

theorem isoDateChars_ne_T (d : NaiveDatetime) :
    ∀ c ∈ isoDateChars d, (c != 'T') = true := by
  intro c hc
  unfold isoDateChars at hc
  simp only [List.mem_append, List.mem_cons] at hc
  have hcd : isDig c = true ∨ c = '-' := by
    rcases hc with (h | rfl | h) | rfl | h
    · exact Or.inl (padChars_all_isDig 4 d.year c h)
    · exact Or.inr rfl
    · exact Or.inl (padChars_all_isDig 2 d.month c h)
    · exact Or.inr rfl
    · exact Or.inl (padChars_all_isDig 2 d.day c h)
  rcases hcd with h | rfl
  · simp only [bne_iff_ne, ne_eq]
    intro he
    subst he
    exact absurd h (by decide)
  · decide

theorem isoTimeChars_classes (d : NaiveDatetime) :
    ∀ c ∈ isoTimeChars d, isDig c = true ∨ c = ':' ∨ c = '.' := by
  intro c hc
  unfold isoTimeChars at hc
  rcases List.mem_append.mp hc with h | h
  · rcases List.mem_append.mp h with h | h
    · rcases List.mem_append.mp h with h | h
      · exact Or.inl (padChars_all_isDig 2 d.hour c h)
      · rcases List.mem_cons.mp h with rfl | h
        · exact Or.inr (Or.inl rfl)
        · exact Or.inl (padChars_all_isDig 2 d.minute c h)
    · rcases List.mem_cons.mp h with rfl | h
      · exact Or.inr (Or.inl rfl)
      · exact Or.inl (padChars_all_isDig 2 d.second c h)
  · by_cases hm : d.microsecond = 0
    · rw [if_pos hm] at h
      cases h
    · rw [if_neg hm] at h
      rcases List.mem_cons.mp h with rfl | h
      · exact Or.inr (Or.inr rfl)
      · exact Or.inl (padChars_all_isDig 6 d.microsecond c h)

theorem timeChar_not_offset {c : Char}
    (h : isDig c = true ∨ c = ':' ∨ c = '.') :
    (c == '+' || c == '-' || c == 'Z') = false := by
  rcases h with h | rfl | rfl
  · have h1 : (c == '+') = false := by
      refine beq_eq_false_iff_ne.mpr ?_
      intro he
      subst he
      exact absurd h (by decide)
    have h2 : (c == '-') = false := by
      refine beq_eq_false_iff_ne.mpr ?_
      intro he
      subst he
      exact absurd h (by decide)
    have h3 : (c == 'Z') = false := by
      refine beq_eq_false_iff_ne.mpr ?_
      intro he
      subst he
      exact absurd h (by decide)
    rw [h1, h2, h3]
    rfl
  · decide
  · decide

/-! ## Claim theorems -/

/-- Claim C1: for every list of sub-check results supplied to the health
evaluation, the status is DOWN iff at least one sub-check has `healthy = false`
(every failing check being critical in current scope), and UP iff all sub-checks
are healthy (vacuously so for the empty list). -/
theorem spec_C1_status_iff (cfg : ProcessConfig) (now : NaiveDatetime)
    (checks : List SubCheckResult) :
    ((Evaluate cfg now checks).1.status = "DOWN" ↔ ∃ c ∈ checks, c.healthy = false) ∧
    ((Evaluate cfg now checks).1.status = "UP" ↔ ∀ c ∈ checks, c.healthy = true) := by
  rw [Evaluate_status cfg now checks]
  by_cases h : ∃ c ∈ checks, c.healthy = false
  · have hany : (checks.any fun c => !c.healthy) = true := by
      simp only [List.any_eq_true, Bool.not_eq_true']
      obtain ⟨c, hc, hcf⟩ := h
      exact ⟨c, hc, hcf⟩
    rw [if_pos hany]
    refine ⟨⟨fun _ => h, fun _ => rfl⟩, ?_, ?_⟩
    · intro hdu
      exact absurd hdu (by decide)
    · intro hall
      obtain ⟨c, hc, hcf⟩ := h
      rw [hall c hc] at hcf
      exact absurd hcf (by decide)
  · have hany : (checks.any fun c => !c.healthy) = false := by
      simp only [List.any_eq_false, Bool.not_eq_true']
      intro c hc hcf
      exact h ⟨c, hc, hcf⟩
    rw [if_neg (by simp [hany])]
    refine ⟨⟨fun hud => absurd hud (by decide), fun hex => absurd hex h⟩,
      fun _ c hc => ?_, fun _ => rfl⟩
    cases hb : c.healthy
    · exact absurd ⟨c, hc, hb⟩ h
    · rfl

/-- Claim C2: with the empty sub-check list (the only case wired), the `/health`
handler returns a report with status `UP`, an empty checks list, HTTP code 200,
and agrees with the spec aggregator applied to the empty list. -/
theorem spec_C2_empty (cfg : ProcessConfig) (now : NaiveDatetime) :
    (health_check cfg now).1.status = "UP" ∧
    (health_check cfg now).1.checks = [] ∧
    (health_check cfg now).2 = 200 ∧
    health_check cfg now = Evaluate cfg now [] :=
  ⟨rfl, rfl, rfl, rfl⟩

/-- Claim C3: the HTTP status code of a health report is determined solely by
its status field, mapping DOWN to 503, DEGRADED to 200 and UP to 200, both in
the wired handler and in the spec aggregator. -/
theorem spec_C3_code_mapping (cfg : ProcessConfig) (now : NaiveDatetime)
    (checks : List SubCheckResult) :
    statusToHttpCode "DOWN" = 503 ∧
    statusToHttpCode "DEGRADED" = 200 ∧
    statusToHttpCode "UP" = 200 ∧
    (Evaluate cfg now checks).2 = statusToHttpCode (Evaluate cfg now checks).1.status ∧
    (health_check cfg now).2 = statusToHttpCode (health_check cfg now).1.status :=
  ⟨rfl, rfl, rfl, rfl, rfl⟩

/-- Claim C4: the checks field of the report lists the supplied sub-check
results in exactly the order they were supplied (identity permutation). -/
theorem spec_C4_order (cfg : ProcessConfig) (now : NaiveDatetime)
    (checks : List SubCheckResult) :
    (Evaluate cfg now checks).1.checks = checks := rfl

/-- Claim C6: the `/status` handler returns HTTP 200 with body exactly `OK`;
it reads no configuration and no sub-check state. -/
theorem spec_C6_status_ok : status_route = ("OK", 200) := rfl

/-- Claim C7: the report's application_version equals the APP_VERSION variable
(default `0.0.1-dev` when unset) and its environment equals the FLASK_ENV
variable (default `development` when unset), copied verbatim. -/
theorem spec_C7_config_verbatim (e : EnvVars) (now : NaiveDatetime) :
    (health_check (loadConfig e) now).1.application_version = e.app_version.getD "0.0.1-dev" ∧
    (health_check (loadConfig e) now).1.environment = e.flask_env.getD "development" :=
  ⟨rfl, rfl⟩

/-- Claim C9: two health evaluations with the same configuration, the same
clock reading and the same sub-check results produce identical reports and
HTTP codes; the embedded evaluation is a total function of those inputs. -/
theorem spec_C9_deterministic (cfg₁ cfg₂ : ProcessConfig) (now₁ now₂ : NaiveDatetime)
    (checks₁ checks₂ : List SubCheckResult)
    (hcfg : cfg₁ = cfg₂) (hnow : now₁ = now₂) (hchecks : checks₁ = checks₂) :
    Evaluate cfg₁ now₁ checks₁ = Evaluate cfg₂ now₂ checks₂ := by
  rw [hcfg, hnow, hchecks]

/-- Witness for C9: the determinism theorem applied at a concrete
configuration, clock reading and sub-check list. -/
theorem spec_C9_witness :
    Evaluate ⟨"development", true, "s", "0.0.1-dev"⟩ ⟨2026, 10, 12, 0, 0, 0, 0⟩
        [⟨"database", true, "ok"⟩] =
      Evaluate ⟨"development", true, "s", "0.0.1-dev"⟩ ⟨2026, 10, 12, 0, 0, 0, 0⟩
        [⟨"database", true, "ok"⟩] :=
  spec_C9_deterministic _ _ _ _ _ _ rfl rfl rfl

/-- Claim C10: the derived debug flag is true iff the FLASK_ENV variable is set
to exactly `development` or is unset (the default); it is false for every other
value, in particular `testing` and `production`. -/
theorem spec_C10_debug_iff (e : EnvVars) (sk av : Option String) :
    (DEBUG_MODE e = true ↔ (e.flask_env = some "development" ∨ e.flask_env = none)) ∧
    DEBUG_MODE ⟨none, sk, av⟩ = true ∧
    DEBUG_MODE ⟨some "testing", sk, av⟩ = false ∧
    DEBUG_MODE ⟨some "production", sk, av⟩ = false := by
  refine ⟨?_, rfl, rfl, rfl⟩
  cases he : e.flask_env with
  | none => simp [DEBUG_MODE, FLASK_ENV, he]
  | some s => simp [DEBUG_MODE, FLASK_ENV, he]

/-- Counterexample for C5: with APP_VERSION set to `o`, the greeting body does
not contain the configured version string exactly once (the character `o` also
occurs in the static text). -/
theorem spec_C5_counterexample :
    (hello_world ⟨none, none, some "o"⟩).2 = 200 ∧
    countOcc "o".data (hello_world ⟨none, none, some "o"⟩).1.data = 4 ∧
    ¬ countOcc "o".data (hello_world ⟨none, none, some "o"⟩).1.data = 1 := by
  refine ⟨rfl, ?_, ?_⟩ <;> decide

/-- Claim C5 as amended: `GET /` returns HTTP 200 with body
`Hello, Flask in Docker! This is version: ` followed by the configured version,
and that body contains the configured version string at least once (not
necessarily exactly once, since the version may also occur in the static
text). -/
theorem spec_C5_amended (e : EnvVars) :
    (hello_world e).2 = 200 ∧
    (hello_world e).1 = "Hello, Flask in Docker! This is version: " ++ APP_VERSION e ∧
    1 ≤ countOcc (APP_VERSION e).data (hello_world e).1.data := by
  refine ⟨rfl, rfl, ?_⟩
  show 1 ≤ countOcc (APP_VERSION e).data
    ("Hello, Flask in Docker! This is version: " ++ APP_VERSION e).data
  rw [String.data_append]
  exact countOcc_append_self (APP_VERSION e).data _

/-- Counterexample for C8: at a concrete clock reading, the timestamp produced
by the `/health` handler is the naive ISO-8601 form and does not carry a local
or UTC offset. -/
theorem spec_C8_counterexample :
    (health_check (loadConfig ⟨none, none, none⟩)
        ⟨2026, 10, 12, 13, 45, 30, 123456⟩).1.timestamp = "2026-10-12T13:45:30.123456" ∧
    carriesOffset ((health_check (loadConfig ⟨none, none, none⟩)
        ⟨2026, 10, 12, 13, 45, 30, 123456⟩).1.timestamp) = false := by
  refine ⟨?_, ?_⟩ <;> decide

/-- Claim C8 as amended: for every health evaluation, the timestamp is the
clock reading at evaluation formatted as a naive ISO-8601 string
(`YYYY-MM-DDTHH:MM:SS[.ffffff]`), which carries no local or UTC offset. -/
theorem spec_C8_no_offset (cfg : ProcessConfig) (now : NaiveDatetime) :
    (health_check cfg now).1.timestamp = isoformat now ∧
    carriesOffset ((health_check cfg now).1.timestamp) = false := by
  refine ⟨rfl, ?_⟩
  show carriesOffset (isoformat now) = false
  unfold carriesOffset isoformat
  show ((isoDateChars now ++ 'T' :: isoTimeChars now).dropWhile fun c => c != 'T').any
      (fun c => c == '+' || c == '-' || c == 'Z') = false
  rw [List.dropWhile_append_of_pos (isoDateChars_ne_T now)]
  rw [List.dropWhile_cons_of_neg (by decide)]
  simp only [List.any_cons]
  have htime : (isoTimeChars now).any (fun c => c == '+' || c == '-' || c == 'Z') = false := by
    refine List.any_eq_false.mpr ?_
    intro c hc
    simp only [Bool.not_eq_true]
    exact timeChar_not_offset (isoTimeChars_classes now c hc)
  rw [htime]
  decide
